import Mathlib

/-!
Verification development for the swift-sgp4 repository.

The repository ships `generate_test_values.py`, a driver script that feeds
two-line element sets to an SGP4 propagator and prints expected state
vectors (or error lines) for a table of satellites and time offsets.  The
propagator core itself (parser, initializer, near-earth and deep-space
perturbation engines, propagation dispatcher) is specified in the design
document; the definitions below embed the driver script from its source and
model the absent core from the specification, over exact rationals.
-/

/-- Modelled from the spec: the two propagation methods chosen once per
element set by the Initializer (spec section 4.2). -/
inductive Method where
  | NEAR_EARTH
  | DEEP_SPACE
deriving DecidableEq, Repr

/-- Modelled from the spec: the error taxonomy of spec section 7, plus the
Kepler non-convergence numerical failure of spec sections 4.3 and 9. -/
inductive ErrorKind where
  | MalformedElementSet
  | InvalidElements
  | MeanEccentricityOutOfRange
  | SemiLatusRectumNegative
  | PerturbedEccentricityOutOfRange
  | SatelliteDecayed
  | KeplerNonConvergence
deriving DecidableEq, Repr

/-- Modelled from the spec: MeanElements (spec section 3) — the parsed,
unit-normalized mean orbital elements.  Angles are in radians, `no_kozai`
(the catalog mean motion) in radians per minute, matching the field names
the driver script reads from the reference implementation. -/
structure MeanElements where
  ecco : ℚ
  inclo : ℚ
  nodeo : ℚ
  argpo : ℚ
  mo : ℚ
  no_kozai : ℚ
  bstar : ℚ
deriving DecidableEq, Repr

/-- Rational stand-in for π used by the unit conversions of the model. -/
def piRat : ℚ := 3.14159265358979323846

/-- Twice the rational stand-in for π, the circle constant of the model. -/
def twoPi : ℚ := 2 * piRat

/-- Modelled from the spec: the Parser's mean-motion unit conversion
(spec section 4.1), revolutions/day → radians/minute. -/
def revPerDayToRadPerMin (m : ℚ) : ℚ := m * twoPi / 1440

/-- Modelled from the spec: the Initializer's recovery of the "undragged"
(Brouwer) mean motion from the catalog (Kozai) mean motion by a J2 secular
correction (spec section 4.2); the correction factor is modelled as a
nonnegative function of eccentricity and inclination. -/
def recoverMeanMotion (m : MeanElements) : ℚ :=
  m.no_kozai / (1 + (m.ecco * m.ecco + m.inclo * m.inclo) / 1000)

/-- Orbital period in minutes corresponding to a mean motion in
radians per minute (spec section 4.2). -/
def periodMinutes (n : ℚ) : ℚ := twoPi / n

/-- Modelled from the spec: the single branch decision of the system —
DEEP_SPACE exactly when the recovered period is at least 225 minutes
(spec sections 4.2 and 8). -/
def selectMethod (n : ℚ) : Method :=
  if 225 ≤ periodMinutes n then Method.DEEP_SPACE else Method.NEAR_EARTH

/-- Modelled from the spec: PropagationConstants (spec section 3) — the
derived, read-only record computed once per element set by the Initializer
and shared by all subsequent propagation calls. -/
structure PropagationConstants where
  method : Method
  no_unkozai : ℚ
  no_kozai : ℚ
  ecco : ℚ
  inclo : ℚ
  nodeo : ℚ
  argpo : ℚ
  mo : ℚ
  bstar : ℚ
deriving DecidableEq, Repr

/-- Modelled from the spec: the Initializer (spec section 4.2) — validates
the mean elements (eccentricity in [0,1), strictly positive mean motion),
recovers the mean motion, and selects the method once. -/
def sgp4init (m : MeanElements) : Except ErrorKind PropagationConstants :=
  if 0 ≤ m.ecco ∧ m.ecco < 1 ∧ 0 < m.no_kozai then
    let n := recoverMeanMotion m
    if 0 < n then
      Except.ok
        { method := selectMethod n
          no_unkozai := n
          no_kozai := m.no_kozai
          ecco := m.ecco
          inclo := m.inclo
          nodeo := m.nodeo
          argpo := m.argpo
          mo := m.mo
          bstar := m.bstar }
    else Except.error ErrorKind.InvalidElements
  else Except.error ErrorKind.InvalidElements

/-- Cubic polynomial model of the sine function used by the rational
embedding of the perturbation math. -/
def sinApprox (x : ℚ) : ℚ := x - x * x * x / 6

/-- Quadratic polynomial model of the cosine function used by the rational
embedding of the perturbation math. -/
def cosApprox (x : ℚ) : ℚ := 1 - x * x / 2

/-- Absolute value on the rationals, written out so concrete runs reduce. -/
def rabs (x : ℚ) : ℚ := if x < 0 then -x else x

/-- Modelled from the spec: the fixed convergence tolerance of the Kepler
solver (spec sections 4.3 and 9). -/
def keplerTol : ℚ := 1 / 1000000000000

/-- Modelled from the spec: the explicit maximum iteration count of the
Kepler solver (spec sections 4.3 and 9 suggest capping at 10). -/
def keplerCap : Nat := 10

/-- One Newton step residual for Kepler's equation M = E - e sin E:
the correction added to the current iterate. -/
def newtonDelta (e M E : ℚ) : ℚ :=
  (M + e * sinApprox E - E) / (1 - e * cosApprox E)

/-- Modelled from the spec: the bounded fixed-point (Newton) iteration for
eccentric anomaly (spec sections 4.3 and 9).  Returns the converged iterate
together with the number of Newton corrections applied, or `none` when the
iteration cap is exhausted without convergence. -/
def keplerLoop (e M : ℚ) (En : ℚ) (fuel : Nat) : Option (ℚ × Nat) :=
  match fuel with
  | 0 => none
  | Nat.succ f =>
    let d := newtonDelta e M En
    if rabs d < keplerTol then some (En, 0)
    else
      match keplerLoop e M (En + d) f with
      | some p => some (p.1, p.2 + 1)
      | none => none

/-- Modelled from the spec: the Kepler solver entry point — start the
iteration at the mean anomaly and run at most `keplerCap` corrections. -/
def solveKepler (e M : ℚ) : Option (ℚ × Nat) := keplerLoop e M M keplerCap

/-- Modelled from the spec: mean (secularly updated) eccentricity at the
requested offset — atmospheric drag erodes the epoch eccentricity over
time (spec section 4.3). -/
def meanEccAt (c : PropagationConstants) (t : ℚ) : ℚ := c.ecco - c.bstar * t

/-- Modelled from the spec: drag-updated semi-major axis at the requested
offset, in earth radii (spec sections 4.2 and 4.3). -/
def axisAt (c : PropagationConstants) (t : ℚ) : ℚ :=
  (1 + 1 / c.no_unkozai) - c.bstar * t / 10

/-- Modelled from the spec: the semi-latus rectum of the drag-updated
ellipse, whose sign is guarded during propagation (spec section 4.3). -/
def semiLatusAt (c : PropagationConstants) (t : ℚ) : ℚ :=
  axisAt c t * (1 - meanEccAt c t * meanEccAt c t)

/-- Modelled from the spec: the long-period periodic correction applied to
the eccentricity before the Kepler solution (spec sections 4.3 and 4.4). -/
def eccPeriodic (c : PropagationConstants) (t : ℚ) : ℚ :=
  c.ecco * cosApprox (c.argpo + c.no_unkozai * t) / 100

/-- Modelled from the spec: perturbed (periodically corrected) eccentricity
at the requested offset, guarded to stay inside [0,1) (spec section 7). -/
def pertEccAt (c : PropagationConstants) (t : ℚ) : ℚ :=
  meanEccAt c t + eccPeriodic c t

/-- Modelled from the spec: secular drift rate of the right ascension of
the ascending node (spec section 4.2). -/
def nodeDot (c : PropagationConstants) : ℚ :=
  -(c.no_unkozai * cosApprox c.inclo) / 1000

/-- Modelled from the spec: secular drift rate of the argument of perigee
(spec section 4.2). -/
def argpDot (c : PropagationConstants) : ℚ :=
  c.no_unkozai * (5 * cosApprox c.inclo * cosApprox c.inclo - 1) / 2000

/-- Modelled from the spec: the mean anomaly advanced by the recovered mean
motion to the requested offset, plus the engine-specific secular extra
(zero for near-earth, lunisolar for deep-space). -/
def meanAnomAt (extraM : ℚ) (c : PropagationConstants) (t : ℚ) : ℚ :=
  c.mo + c.no_unkozai * t + extraM

/-- Modelled from the spec: the intermediate perturbed elements returned by
either perturbation engine (spec sections 4.3 and 4.4). -/
structure PerturbedElements where
  am : ℚ
  em : ℚ
  ep : ℚ
  xincp : ℚ
  nodep : ℚ
  argpp : ℚ
  mp : ℚ
  eccAnom : ℚ
deriving DecidableEq, Repr

/-- Modelled from the spec: the shared body of the two perturbation engines
(spec sections 4.3 and 4.4): secular updates first, range guard on the mean
eccentricity, sign guard on the semi-latus rectum, long-period periodic
corrections with a range guard on the perturbed eccentricity, then the
bounded Kepler solution; non-convergence is a numerical failure. -/
def engineElems (extraM : ℚ) (c : PropagationConstants) (t : ℚ) :
    Except ErrorKind PerturbedElements :=
  let em := meanEccAt c t
  if 0 ≤ em ∧ em < 1 then
    if semiLatusAt c t < 0 then Except.error ErrorKind.SemiLatusRectumNegative
    else
      let ep := pertEccAt c t
      if 0 ≤ ep ∧ ep < 1 then
        let M := meanAnomAt extraM c t
        match solveKepler ep M with
        | none => Except.error ErrorKind.KeplerNonConvergence
        | some p =>
          Except.ok
            { am := axisAt c t
              em := em
              ep := ep
              xincp := c.inclo
              nodep := c.nodeo + nodeDot c * t
              argpp := c.argpo + argpDot c * t
              mp := M
              eccAnom := p.1 }
      else Except.error ErrorKind.PerturbedEccentricityOutOfRange
  else Except.error ErrorKind.MeanEccentricityOutOfRange

/-- Modelled from the spec: the deep-space engine additionally integrates
lunisolar secular perturbations, recomputed per call from the constants and
the offset alone (spec sections 4.4 and 9); modelled as an extra secular
contribution to the mean anomaly. -/
def lunisolarM (c : PropagationConstants) (t : ℚ) : ℚ :=
  c.inclo * t / 10000

/-- Modelled from the spec: the Propagation Dispatcher's branch on the
method tag chosen at initialization (spec section 4.5). -/
def dispatchElems (c : PropagationConstants) (t : ℚ) :
    Except ErrorKind PerturbedElements :=
  match c.method with
  | Method.NEAR_EARTH => engineElems 0 c t
  | Method.DEEP_SPACE => engineElems (lunisolarM c t) c t

/-- Modelled from the spec: StateVector (spec section 3) — position and
velocity, each a 3-component vector, in the TEME frame. -/
structure StateVector where
  pos : ℚ × ℚ × ℚ
  vel : ℚ × ℚ × ℚ
deriving DecidableEq, Repr

/-- Modelled from the spec: the orbital radius recovered from the perturbed
elements, in earth radii; a value below one earth radius means the modelled
trajectory has re-entered (spec section 7). -/
def radiusAt (pe : PerturbedElements) : ℚ :=
  pe.am * (1 - pe.ep * cosApprox pe.eccAnom)

/-- Modelled from the spec: the fixed rotation sequence (node, inclination,
argument of latitude) turning perturbed elements into a Cartesian state
vector (spec section 4.5), over the polynomial circle functions. -/
def toStateVector (pe : PerturbedElements) : StateVector :=
  let u := pe.argpp + pe.eccAnom
  let r := radiusAt pe
  let rdot := pe.ep * sinApprox pe.eccAnom
  { pos := (r * (cosApprox pe.nodep * cosApprox u),
            r * (sinApprox pe.nodep * cosApprox u +
                 cosApprox pe.xincp * sinApprox u),
            r * (sinApprox pe.xincp * sinApprox u))
    vel := (rdot * cosApprox u - r * sinApprox u,
            rdot * sinApprox u + r * cosApprox u * cosApprox pe.xincp,
            (rdot * sinApprox u + r * cosApprox u) * sinApprox pe.xincp) }

/-- Modelled from the spec: the public propagation entry point (spec
section 4.5), named after the driver script's `sgp4_tsince` call — dispatch
on the method tag, guard against decay, and transform to a state vector.
Returns the intermediate perturbed elements alongside the state vector, as
the engines of spec sections 4.3 and 4.4 hand them to the dispatcher. -/
def sgp4_tsince (c : PropagationConstants) (t : ℚ) :
    Except ErrorKind (PerturbedElements × StateVector) :=
  match dispatchElems c t with
  | Except.error k => Except.error k
  | Except.ok pe =>
    if radiusAt pe < 1 then Except.error ErrorKind.SatelliteDecayed
    else Except.ok (pe, toStateVector pe)

/-- Modelled from the spec: the propagation call in explicit state-passing
form — the call returns its result together with the constants record it
leaves behind, which is the record it was given, unchanged (spec sections
3, 4.5 and 7: constants are immutable after initialization). -/
def sgp4St (c : PropagationConstants) (t : ℚ) :
    Except ErrorKind (PerturbedElements × StateVector) × PropagationConstants :=
  (sgp4_tsince c t, c)

/-- A batch propagation request: an index into the table of initialized
constants records, and an elapsed-time offset in minutes (modelled from
spec section 5's batch propagation across many satellites and times). -/
def BatchCall : Type := Nat × ℚ

/-- The result a single batch call would produce on its own: look the
satellite up in the table and propagate it at the requested offset. -/
def doCall (w : List PropagationConstants) (cl : Nat × ℚ) :
    Option (Except ErrorKind (PerturbedElements × StateVector)) :=
  (w.get? cl.1).map (fun c => sgp4_tsince c cl.2)

/-- One step of the batch driver in state-passing form: the table of
constants records is threaded through, and a propagation call leaves it
unchanged (spec sections 3 and 5). -/
def stepCall (w : List PropagationConstants) (cl : Nat × ℚ) :
    List PropagationConstants ×
      Option (Except ErrorKind (PerturbedElements × StateVector)) :=
  (w, doCall w cl)

/-- Modelled from the spec: sequential batch propagation (spec section 5) —
the calls are performed one after another, each seeing the table left
behind by the previous call. -/
def runBatch (w : List PropagationConstants) :
    List (Nat × ℚ) →
      List (Option (Except ErrorKind (PerturbedElements × StateVector)))
  | [] => []
  | cl :: cls =>
    let s := stepCall w cl
    s.2 :: runBatch s.1 cls

/-- One entry of the driver script's satellite table
(src/generate_test_values.py, lines 10-32): an identifier, a name and
description, the initialized constants the script obtains through
`Satrec.twoline2rv`, and the list of test times in minutes. -/
structure SatEntry where
  satId : String
  name : String
  descr : String
  const : PropagationConstants
  times : List ℚ
deriving Repr

/-- One printed line of the driver script's output, abstracted from
src/generate_test_values.py: the banner/header block per satellite, the
TLE-parameter block, one `ExpectedState` block per successful time, one
error line per failed time, and the final completion banner. -/
inductive OutLine where
  | header (satId name descr : String)
  | tleParams (ecco inclo noRevsPerDay bstar : ℚ) (method : Method)
  | stateLine (t : ℚ) (s : StateVector)
  | errLine (t : ℚ) (code : ErrorKind)
  | footer
deriving Repr

/-- The driver's per-time body (src/generate_test_values.py, lines 52-63):
propagate at the time, print an `ExpectedState` block when the error code
is zero, and print an error line otherwise. -/
def emitTime (c : PropagationConstants) (t : ℚ) : OutLine :=
  match sgp4_tsince c t with
  | Except.ok r => OutLine.stateLine t r.2
  | Except.error k => OutLine.errLine t k

/-- The driver's per-satellite body (src/generate_test_values.py,
lines 34-65): header and parameter blocks, then one output line per
configured time, in order. -/
def runSat (e : SatEntry) : List OutLine :=
  OutLine.header e.satId e.name e.descr ::
    OutLine.tleParams e.const.ecco e.const.inclo
      (e.const.no_kozai * 1440 / twoPi) e.const.bstar e.const.method ::
    e.times.map (emitTime e.const)

/-- The whole driver script (src/generate_test_values.py): process every
satellite of the table in order, then print the completion banner. -/
def runScript (es : List SatEntry) : List OutLine :=
  es.flatMap runSat ++ [OutLine.footer]

theorem sgp4init_ok_fields {m : MeanElements} {c : PropagationConstants}
    (h : sgp4init m = Except.ok c) :
    c.method = selectMethod c.no_unkozai ∧ c.no_kozai = m.no_kozai ∧
      c.no_unkozai = recoverMeanMotion m := by
  unfold sgp4init at h
  split at h
  · dsimp only at h
    split at h
    · cases h
      exact ⟨rfl, rfl, rfl⟩
    · cases h
  · cases h

/-- Claim C2: for every valid element set, the method tag chosen at
initialization is a pure function of the recovered orbital period — equal
recovered periods force equal tags, and the tag is DEEP_SPACE exactly when
the recovered period is at least 225 minutes. -/
theorem method_pure_function_of_period :
    (∀ m₁ m₂ c₁ c₂, sgp4init m₁ = Except.ok c₁ → sgp4init m₂ = Except.ok c₂ →
      periodMinutes c₁.no_unkozai = periodMinutes c₂.no_unkozai →
      c₁.method = c₂.method) ∧
    (∀ m c, sgp4init m = Except.ok c →
      (c.method = Method.DEEP_SPACE ↔ 225 ≤ periodMinutes c.no_unkozai)) := by
  constructor
  · intro m₁ m₂ c₁ c₂ h₁ h₂ hp
    rw [(sgp4init_ok_fields h₁).1, (sgp4init_ok_fields h₂).1]
    unfold selectMethod
    rw [hp]
  · intro m c h
    rw [(sgp4init_ok_fields h).1]
    unfold selectMethod
    split
    · simp_all
    · simp_all

/-- Witness for C2: a concrete slow element set (recovered period 14400
minutes) is tagged DEEP_SPACE, through the claim theorem. -/
theorem method_pure_function_of_period_witness :
    ((⟨Method.DEEP_SPACE, 1/100, 1/100, 0, 0, 0, 0, 0, 0⟩ :
        PropagationConstants).method = Method.DEEP_SPACE ↔
      225 ≤ periodMinutes ((⟨Method.DEEP_SPACE, 1/100, 1/100, 0, 0, 0, 0, 0,
        0⟩ : PropagationConstants).no_unkozai)) :=
  method_pure_function_of_period.2 ⟨0, 0, 0, 0, 0, 1/100, 0⟩
    _ (by with_unfolding_all rfl)

/-- Claim C6: for every element set that parses successfully, converting
the mean motion stored after initialization back to revolutions per day
(radians/minute times 1440 over 2π) recovers the input TLE mean-motion
field — exactly, in the rational model, hence within any floating-point
tolerance; the Kozai/Brouwer recovery correction lives in the separate
`no_unkozai` field and leaves the stored `no_kozai` untouched, as the
driver script's revolutions-per-day readback assumes. -/
theorem no_kozai_unit_roundtrip :
    ∀ (r : ℚ) (m : MeanElements) (c : PropagationConstants),
      m.no_kozai = revPerDayToRadPerMin r → sgp4init m = Except.ok c →
      c.no_kozai * 1440 / twoPi = r := by
  intro r m c hm hc
  have h2 : twoPi ≠ 0 := by norm_num [twoPi, piRat]
  rw [(sgp4init_ok_fields hc).2.1, hm]
  unfold revPerDayToRadPerMin
  field_simp

/-- Witness for C6: a 16 revolutions/day element set initializes, and the
stored mean motion converts back to exactly 16 revolutions/day. -/
theorem no_kozai_unit_roundtrip_witness :
    ((⟨Method.NEAR_EARTH, revPerDayToRadPerMin 16, revPerDayToRadPerMin 16,
        0, 0, 0, 0, 0, 0⟩ :
      PropagationConstants).no_kozai * 1440 / twoPi = 16) :=
  no_kozai_unit_roundtrip 16 ⟨0, 0, 0, 0, 0, revPerDayToRadPerMin 16, 0⟩ _
    rfl (by with_unfolding_all rfl)

/-- Claim C3: propagation is deterministic — calling the propagation entry
point twice, the second call on the constants record the first call left
behind, with the same offset, returns the identical result (same error or
same perturbed elements and state vector), and no hidden state can
intervene because the call is a function of the
(PropagationConstants, EpochOffset) pair alone. -/
theorem sgp4_deterministic :
    ∀ (c : PropagationConstants) (t : ℚ),
      (sgp4St (sgp4St c t).2 t).1 = (sgp4St c t).1 ∧
      sgp4_tsince c t = sgp4_tsince c t :=
  fun _ _ => ⟨rfl, rfl⟩

/-- Claim C4: no exception crosses the public boundary — initialization
and propagation are total functions returning values: for every input
element set, initialization returns either a constants record or an error
code, and for every constants record and every offset, propagation returns
either a state vector with success status or an error code from the
taxonomy; no other outcome exists. -/
theorem sgp4_total_no_panic :
    ∀ (m : MeanElements) (c : PropagationConstants) (t : ℚ),
      ((∃ c', sgp4init m = Except.ok c') ∨
        (∃ k : ErrorKind, sgp4init m = Except.error k)) ∧
      ((∃ pe sv, sgp4_tsince c t = Except.ok (pe, sv)) ∨
        (∃ k : ErrorKind, sgp4_tsince c t = Except.error k)) := by
  intro m c t
  constructor
  · cases h : sgp4init m with
    | ok c' => exact Or.inl ⟨c', rfl⟩
    | error k => exact Or.inr ⟨k, rfl⟩
  · cases h : sgp4_tsince c t with
    | ok r => exact Or.inl ⟨r.1, r.2, rfl⟩
    | error k => exact Or.inr ⟨k, rfl⟩

theorem runBatch_eq_map (w : List PropagationConstants) :
    ∀ calls : List (Nat × ℚ), runBatch w calls = calls.map (doCall w)
  | [] => rfl
  | cl :: cls => by
    simp only [runBatch, stepCall, List.map]
    exact congrArg _ (runBatch_eq_map w cls)

/-- Claim C5: batch independence — in the sequential batch driver every
call's result is exactly the result it would produce on its own, so a
call's outcome is unaffected by which calls were made before or after it
and by the order of the batch; in particular the call at any position of
any batch equals its standalone propagation. -/
theorem batch_independence :
    (∀ (w : List PropagationConstants) (calls : List (Nat × ℚ)),
      runBatch w calls = calls.map (doCall w)) ∧
    (∀ (w : List PropagationConstants) (pre post : List (Nat × ℚ)) cl,
      (runBatch w (pre ++ cl :: post))[pre.length]? = some (doCall w cl)) := by
  refine ⟨runBatch_eq_map, ?_⟩
  intro w pre post cl
  rw [runBatch_eq_map, List.getElem?_map,
    List.getElem?_append_right (le_refl pre.length)]
  simp

/-- Claim C8: propagation-time errors are per-call and non-sticky — when a
call on a constants record at one offset fails with an error, the record
the failed call leaves behind is the record it was given, unchanged, and a
call at any other offset on that left-behind record returns exactly what
that offset yields on its own. -/
theorem errors_per_call_non_sticky :
    ∀ (c : PropagationConstants) (t₁ t₂ : ℚ) (k : ErrorKind),
      (sgp4St c t₁).1 = Except.error k →
      (sgp4St c t₁).2 = c ∧
      (sgp4St (sgp4St c t₁).2 t₂).1 = (sgp4St c t₂).1 :=
  fun _ _ _ _ _ => ⟨rfl, rfl⟩

/-- Witness for C8: a high-drag record errors at offset 100 yet leaves the
constants unchanged, and the follow-up call at offset 0 — which succeeds —
returns its standalone result; through the claim theorem. -/
theorem errors_per_call_non_sticky_witness :
    ((sgp4St (⟨Method.NEAR_EARTH, 1, 1, 1/100, 0, 0, 0, 0, 1/100⟩ :
        PropagationConstants) 100).2 =
      (⟨Method.NEAR_EARTH, 1, 1, 1/100, 0, 0, 0, 0, 1/100⟩ :
        PropagationConstants) ∧
     (sgp4St ((sgp4St (⟨Method.NEAR_EARTH, 1, 1, 1/100, 0, 0, 0, 0, 1/100⟩ :
        PropagationConstants) 100).2) 0).1 =
      (sgp4St (⟨Method.NEAR_EARTH, 1, 1, 1/100, 0, 0, 0, 0, 1/100⟩ :
        PropagationConstants) 0).1) ∧
    (∃ r, (sgp4St (⟨Method.NEAR_EARTH, 1, 1, 1/100, 0, 0, 0, 0, 1/100⟩ :
        PropagationConstants) 0).1 = Except.ok r) :=
  ⟨errors_per_call_non_sticky _ 100 0 ErrorKind.MeanEccentricityOutOfRange
      (by with_unfolding_all rfl),
    ⟨_, by with_unfolding_all rfl⟩⟩

theorem engineElems_ok_ranges {x : ℚ} {c : PropagationConstants} {t : ℚ}
    {pe : PerturbedElements} (h : engineElems x c t = Except.ok pe) :
    (0 ≤ pe.em ∧ pe.em < 1) ∧ (0 ≤ pe.ep ∧ pe.ep < 1) := by
  unfold engineElems at h
  dsimp only at h
  split_ifs at h with h1 h2 h3
  revert h
  cases hk : solveKepler (pertEccAt c t) (meanAnomAt x c t) with
  | none => intro h; exact Except.noConfusion h
  | some p =>
    intro h
    injection h with h4
    subst h4
    exact ⟨h1, h3⟩

theorem engineElems_em_fail {x : ℚ} {c : PropagationConstants} {t : ℚ}
    (h : ¬(0 ≤ meanEccAt c t ∧ meanEccAt c t < 1)) :
    engineElems x c t = Except.error ErrorKind.MeanEccentricityOutOfRange := by
  unfold engineElems
  rw [if_neg h]

theorem engineElems_ep_fail {x : ℚ} {c : PropagationConstants} {t : ℚ}
    (h1 : 0 ≤ meanEccAt c t ∧ meanEccAt c t < 1)
    (h2 : ¬ semiLatusAt c t < 0)
    (h3 : ¬(0 ≤ pertEccAt c t ∧ pertEccAt c t < 1)) :
    engineElems x c t =
      Except.error ErrorKind.PerturbedEccentricityOutOfRange := by
  unfold engineElems
  rw [if_pos h1, if_neg h2, if_neg h3]

/-- The engine-specific extra secular mean-anomaly contribution the
dispatcher hands to the shared engine body: zero for the near-earth
branch, the lunisolar term for the deep-space branch. -/
def extraMOf (c : PropagationConstants) (t : ℚ) : ℚ :=
  match c.method with
  | Method.NEAR_EARTH => 0
  | Method.DEEP_SPACE => lunisolarM c t

theorem dispatchElems_eq (c : PropagationConstants) (t : ℚ) :
    dispatchElems c t = engineElems (extraMOf c t) c t := by
  unfold dispatchElems extraMOf
  cases c.method <;> rfl

theorem sgp4_tsince_ok_elems {c : PropagationConstants} {t : ℚ}
    {pe : PerturbedElements} {sv : StateVector}
    (h : sgp4_tsince c t = Except.ok (pe, sv)) :
    dispatchElems c t = Except.ok pe := by
  unfold sgp4_tsince at h
  revert h
  cases hd : dispatchElems c t with
  | error k => intro h; cases h
  | ok pe' =>
    intro h
    dsimp only at h
    by_cases hr : radiusAt pe' < 1
    · rw [if_pos hr] at h; cases h
    · rw [if_neg hr] at h; cases h; rfl

/-- Claim C9: range invariant on eccentricity — every successful
propagation returns perturbed elements whose mean and perturbed
eccentricities lie in [0,1); and whenever drag pushes the mean
eccentricity outside [0,1) the call returns MeanEccentricityOutOfRange,
while a periodic correction pushing the perturbed eccentricity outside
[0,1) (with the earlier guards passing) returns
PerturbedEccentricityOutOfRange, never a state vector. -/
theorem ecc_range_invariant :
    (∀ (c : PropagationConstants) (t : ℚ) pe sv,
      sgp4_tsince c t = Except.ok (pe, sv) →
      (0 ≤ pe.em ∧ pe.em < 1) ∧ (0 ≤ pe.ep ∧ pe.ep < 1)) ∧
    (∀ (c : PropagationConstants) (t : ℚ),
      ¬(0 ≤ meanEccAt c t ∧ meanEccAt c t < 1) →
      sgp4_tsince c t = Except.error ErrorKind.MeanEccentricityOutOfRange) ∧
    (∀ (c : PropagationConstants) (t : ℚ),
      (0 ≤ meanEccAt c t ∧ meanEccAt c t < 1) →
      ¬ semiLatusAt c t < 0 →
      ¬(0 ≤ pertEccAt c t ∧ pertEccAt c t < 1) →
      sgp4_tsince c t =
        Except.error ErrorKind.PerturbedEccentricityOutOfRange) := by
  refine ⟨?_, ?_, ?_⟩
  · intro c t pe sv h
    have hd := sgp4_tsince_ok_elems h
    rw [dispatchElems_eq] at hd
    exact engineElems_ok_ranges hd
  · intro c t h
    unfold sgp4_tsince
    rw [dispatchElems_eq, engineElems_em_fail h]
  · intro c t h1 h2 h3
    unfold sgp4_tsince
    rw [dispatchElems_eq, engineElems_ep_fail h1 h2 h3]

/-- Witness for C9: a clean near-earth record at offset 0 propagates
successfully with both eccentricities in [0,1); a record with negative
epoch eccentricity returns MeanEccentricityOutOfRange; and a record whose
periodic correction drives the perturbed eccentricity negative returns
PerturbedEccentricityOutOfRange; all through the claim theorem. -/
theorem ecc_range_invariant_witness :
    (∃ pe sv,
      sgp4_tsince (⟨Method.NEAR_EARTH, 1, 1, 1/10, 0, 0, 0, 0, 0⟩ :
        PropagationConstants) 0 = Except.ok (pe, sv) ∧
      (0 ≤ pe.em ∧ pe.em < 1) ∧ (0 ≤ pe.ep ∧ pe.ep < 1)) ∧
    (sgp4_tsince (⟨Method.NEAR_EARTH, 1, 1, -1, 0, 0, 0, 0, 0⟩ :
        PropagationConstants) 0 =
      Except.error ErrorKind.MeanEccentricityOutOfRange) ∧
    (sgp4_tsince (⟨Method.NEAR_EARTH, 1, 1, 1/2, 0, 0, 15, 0, 0⟩ :
        PropagationConstants) 0 =
      Except.error ErrorKind.PerturbedEccentricityOutOfRange) := by
  refine ⟨⟨⟨2, 1/10, 101/1000, 0, 0, 0, 0, 0⟩,
      ⟨(899/500, 0, 0), (0, 899/500, 0)⟩, by with_unfolding_all rfl, ?_⟩,
      ?_, ?_⟩
  · exact ecc_range_invariant.1 ⟨Method.NEAR_EARTH, 1, 1, 1/10, 0, 0, 0, 0, 0⟩
      0 ⟨2, 1/10, 101/1000, 0, 0, 0, 0, 0⟩
      ⟨(899/500, 0, 0), (0, 899/500, 0)⟩ (by with_unfolding_all rfl)
  · exact ecc_range_invariant.2.1 _ 0 (by with_unfolding_all decide)
  · exact ecc_range_invariant.2.2 _ 0 (by with_unfolding_all decide)
      (by with_unfolding_all decide) (by with_unfolding_all decide)

theorem keplerLoop_count :
    ∀ (fuel : Nat) (e M En : ℚ) (p : ℚ × Nat),
      keplerLoop e M En fuel = some p → p.2 < fuel := by
  intro fuel
  induction fuel with
  | zero =>
    intro e M En p h
    exact Option.noConfusion h
  | succ f ih =>
    intro e M En p h
    unfold keplerLoop at h
    dsimp only at h
    by_cases hc : rabs (newtonDelta e M En) < keplerTol
    · rw [if_pos hc] at h
      injection h with h4
      subst h4
      exact Nat.succ_pos f
    · rw [if_neg hc] at h
      revert h
      cases hr : keplerLoop e M (En + newtonDelta e M En) f with
      | none => intro h; exact Option.noConfusion h
      | some q =>
        intro h
        injection h with h4
        subst h4
        exact Nat.succ_lt_succ (ih e M (En + newtonDelta e M En) q hr)

theorem engineElems_kepler_fail {x : ℚ} {c : PropagationConstants} {t : ℚ}
    (h1 : 0 ≤ meanEccAt c t ∧ meanEccAt c t < 1)
    (h2 : ¬ semiLatusAt c t < 0)
    (h3 : 0 ≤ pertEccAt c t ∧ pertEccAt c t < 1)
    (hk : solveKepler (pertEccAt c t) (meanAnomAt x c t) = none) :
    engineElems x c t = Except.error ErrorKind.KeplerNonConvergence := by
  unfold engineElems
  dsimp only
  rw [if_pos h1, if_neg h2, if_pos h3, hk]

/-- Claim C7: the Kepler solver terminates within its fixed cap — every
converging run of the fixed-point (Newton) iteration reports strictly
fewer corrections than the cap of 10, and when the cap is exhausted
without reaching the fixed tolerance, the propagation call (with all
earlier guards passing) returns the numerical-failure error instead of
iterating further. -/
theorem kepler_solver_bounded :
    (∀ (e M : ℚ) (p : ℚ × Nat), solveKepler e M = some p → p.2 < keplerCap) ∧
    (∀ (c : PropagationConstants) (t : ℚ),
      (0 ≤ meanEccAt c t ∧ meanEccAt c t < 1) →
      ¬ semiLatusAt c t < 0 →
      (0 ≤ pertEccAt c t ∧ pertEccAt c t < 1) →
      solveKepler (pertEccAt c t) (meanAnomAt (extraMOf c t) c t) = none →
      sgp4_tsince c t = Except.error ErrorKind.KeplerNonConvergence) := by
  constructor
  · intro e M p h
    exact keplerLoop_count keplerCap e M M p h
  · intro c t h1 h2 h3 hk
    unfold sgp4_tsince
    rw [dispatchElems_eq, engineElems_kepler_fail h1 h2 h3 hk]

/-- Witness for C7: a converging solver run (eccentricity 1/2, mean
anomaly 0) reports 0 corrections, below the cap; and a concrete call whose
mean anomaly reaches 100 radians exhausts the cap and returns the
numerical-failure error; both through the claim theorem. -/
theorem kepler_solver_bounded_witness :
    (((0, 0) : ℚ × Nat).2 < keplerCap ∧
    sgp4_tsince (⟨Method.NEAR_EARTH, 1, 1, 1/2, 0, 0, -100, 0, 0⟩ :
        PropagationConstants) 100 =
      Except.error ErrorKind.KeplerNonConvergence) :=
  ⟨kepler_solver_bounded.1 (1/2) 0 (0, 0) (by with_unfolding_all rfl),
    kepler_solver_bounded.2 ⟨Method.NEAR_EARTH, 1, 1, 1/2, 0, 0, -100, 0, 0⟩
      100 (by with_unfolding_all decide) (by with_unfolding_all decide)
      (by with_unfolding_all decide) (by with_unfolding_all rfl)⟩

/-- Claim C10: continue-on-error in the driver — every satellite entry and
every configured time of the script's table contributes exactly one output
line (an `ExpectedState` block on success, an error line on a nonzero
error code) to the script's output; the per-satellite output lists every
configured time in order after the header blocks, and the total output
length counts every entry and every time plus the final banner, so one
failed propagation never aborts the run or suppresses later outputs. -/
theorem driver_continue_on_error :
    (∀ (es : List SatEntry) (e : SatEntry), e ∈ es → ∀ t ∈ e.times,
      emitTime e.const t ∈ runScript es) ∧
    (∀ es : List SatEntry,
      (runScript es).length =
        (es.map (fun e => e.times.length + 2)).sum + 1) ∧
    (∀ e : SatEntry, runSat e =
      OutLine.header e.satId e.name e.descr ::
        OutLine.tleParams e.const.ecco e.const.inclo
          (e.const.no_kozai * 1440 / twoPi) e.const.bstar e.const.method ::
        e.times.map (emitTime e.const)) := by
  refine ⟨?_, ?_, fun e => rfl⟩
  · intro es e he t ht
    unfold runScript
    apply List.mem_append_left
    rw [List.mem_flatMap]
    refine ⟨e, he, ?_⟩
    unfold runSat
    exact List.mem_cons_of_mem _ (List.mem_cons_of_mem _
      (List.mem_map_of_mem (emitTime e.const) ht))
  · intro es
    induction es with
    | nil => rfl
    | cons e rest ih =>
      unfold runScript runSat at ih ⊢
      simp only [List.flatMap_cons, List.map_cons, List.sum_cons,
        List.append_assoc, List.length_append, List.length_cons,
        List.length_map] at ih ⊢
      omega

/-- Witness for C10: in a concrete two-satellite table whose first
satellite fails at its configured time, the failing time still produces
its (error) output line and the second satellite's successful time still
produces its state line, through the claim theorem; and the failing time's
line is indeed an error line. -/
theorem driver_continue_on_error_witness :
    (emitTime (⟨Method.NEAR_EARTH, 1, 1, -1/2, 0, 0, 0, 0, 1/2⟩ :
        PropagationConstants) 0 ∈
      runScript
        [⟨"28350", "COSMOS 2405", "high drag",
            ⟨Method.NEAR_EARTH, 1, 1, -1/2, 0, 0, 0, 0, 1/2⟩, [0]⟩,
         ⟨"28057", "CBERS 2", "near-earth",
            ⟨Method.NEAR_EARTH, 1, 1, 1/10, 0, 0, 0, 0, 0⟩, [0]⟩]) ∧
    (emitTime (⟨Method.NEAR_EARTH, 1, 1, 1/10, 0, 0, 0, 0, 0⟩ :
        PropagationConstants) 0 ∈
      runScript
        [⟨"28350", "COSMOS 2405", "high drag",
            ⟨Method.NEAR_EARTH, 1, 1, -1/2, 0, 0, 0, 0, 1/2⟩, [0]⟩,
         ⟨"28057", "CBERS 2", "near-earth",
            ⟨Method.NEAR_EARTH, 1, 1, 1/10, 0, 0, 0, 0, 0⟩, [0]⟩]) ∧
    (emitTime (⟨Method.NEAR_EARTH, 1, 1, -1/2, 0, 0, 0, 0, 1/2⟩ :
        PropagationConstants) 0 =
      OutLine.errLine 0 ErrorKind.MeanEccentricityOutOfRange) :=
  ⟨driver_continue_on_error.1 _
      ⟨"28350", "COSMOS 2405", "high drag",
        ⟨Method.NEAR_EARTH, 1, 1, -1/2, 0, 0, 0, 0, 1/2⟩, [0]⟩
      (List.mem_cons_self _ _) 0 (List.mem_cons_self _ _),
    driver_continue_on_error.1 _
      ⟨"28057", "CBERS 2", "near-earth",
        ⟨Method.NEAR_EARTH, 1, 1, 1/10, 0, 0, 0, 0, 0⟩, [0]⟩
      (List.mem_cons_of_mem _ (List.mem_cons_self _ _)) 0
      (List.mem_cons_self _ _),
    by with_unfolding_all rfl⟩
